import Mathlib

/-!
Verification of the risk-adjusted position-sizing and opportunity-scoring core
of a cryptocurrency trading agent.  The numeric type of the embedding is ℚ;
JavaScript `Math.round` is modelled as rounding half toward positive infinity,
and `Math.sqrt` (which only feeds the Bollinger/Sharpe outputs, never any
branching that the claims depend on) is abstracted as an explicit function
parameter.
-/

/-- JavaScript `Math.round`: round half toward positive infinity. -/
def jsRound (x : ℚ) : ℤ := ⌊x + 1/2⌋

/-- The idiom `Math.round(x * 100) / 100` (two-decimal rounding). -/
def round2 (x : ℚ) : ℚ := (jsRound (x * 100) : ℚ) / 100

/-- The idiom `Math.round(x * 10000) / 10000` (four-decimal rounding). -/
def round4 (x : ℚ) : ℚ := (jsRound (x * 10000) : ℚ) / 10000

/-- JavaScript `xs.slice(-n)`: the last `n` elements (whole list when shorter). -/
def lastN (n : ℕ) (xs : List α) : List α := xs.drop (xs.length - n)

/-- One OHLCV candle (the `CandleData` interface; the string tags `s`, `i`
and the trade count `n`, never read by the computational core, are omitted). -/
structure CandleData where
  t : ℤ
  o : ℚ
  c : ℚ
  h : ℚ
  l : ℚ
  v : ℚ
  deriving DecidableEq, Repr

instance : Inhabited CandleData := ⟨⟨0, 0, 0, 0, 0, 0⟩⟩

structure BollingerBands where
  upper : ℚ
  middle : ℚ
  lower : ℚ
  deriving DecidableEq, Repr

structure MacdResult where
  macd : ℚ
  signal : ℚ
  histogram : ℚ
  deriving DecidableEq, Repr

structure TechnicalIndicators where
  rsi : ℚ
  sma : ℚ
  ema : ℚ
  bollinger : BollingerBands
  macd : MacdResult
  deriving DecidableEq, Repr

/-- Per-index deltas `closes[i] - closes[i-1]` for `i` from 1 (the loop at the
top of `calculateTechnicalIndicators`). -/
def priceChanges (closes : List ℚ) : List ℚ :=
  (closes.zip closes.tail).map (fun p => p.2 - p.1)

/-- The `gains` array: `change > 0 ? change : 0`. -/
def gainsOf (closes : List ℚ) : List ℚ :=
  (priceChanges closes).map (fun ch => if ch > 0 then ch else 0)

/-- The `losses` array: `change < 0 ? Math.abs(change) : 0`. -/
def lossesOf (closes : List ℚ) : List ℚ :=
  (priceChanges closes).map (fun ch => if ch < 0 then |ch| else 0)

/-- `avgGain`: sum of the last 14 gains divided by 14. -/
def avgGainOf (closes : List ℚ) : ℚ := (lastN 14 (gainsOf closes)).sum / 14

/-- `avgLoss`: sum of the last 14 losses divided by 14. -/
def avgLossOf (closes : List ℚ) : ℚ := (lastN 14 (lossesOf closes)).sum / 14

/-- The sentinel ratio `rs = avgLoss === 0 ? 100 : avgGain / avgLoss`. -/
def rsOf (closes : List ℚ) : ℚ :=
  if avgLossOf closes = 0 then 100 else avgGainOf closes / avgLossOf closes

/-- The RSI computation of `calculateTechnicalIndicators`:
`rsi = 100 - 100/(1+rs)`. -/
def rsiOf (closes : List ℚ) : ℚ := 100 - 100 / (1 + rsOf closes)

/-- Embedding of `calculateTechnicalIndicators` (src/unnamed/part_000, lines
180-232).  `sqrt` abstracts JavaScript `Math.sqrt`. -/
def calculateTechnicalIndicators (sqrt : ℚ → ℚ) (candles : List CandleData) :
    TechnicalIndicators :=
  if candles.length < 20 then
    { rsi := 50
      sma := ((candles.getLast?).map CandleData.c).getD 0
      ema := ((candles.getLast?).map CandleData.c).getD 0
      bollinger := ⟨0, 0, 0⟩
      macd := ⟨0, 0, 0⟩ }
  else
    let closes := candles.map CandleData.c
    let rsi := rsiOf closes
    let sma := (lastN 20 closes).sum / 20
    let multiplier : ℚ := 2 / (20 + 1)
    let ema := closes.tail.foldl
      (fun e x => x * multiplier + e * (1 - multiplier)) closes.headI
    let std := sqrt (((lastN 20 closes).map (fun price => (price - sma) ^ 2)).sum / 20)
    let ema12 := (lastN 12 closes).sum / 12
    let ema26 := (lastN 26 closes).sum / 26
    let macdVal := ema12 - ema26
    { rsi := rsi
      sma := sma
      ema := ema
      bollinger := ⟨sma + std * 2, sma, sma - std * 2⟩
      macd := ⟨macdVal, macdVal, macdVal - macdVal⟩ }

structure WinningMetrics where
  winRate : ℚ
  sharpeRatio : ℚ
  maxDrawdown : ℚ
  avgVolatility : ℚ
  deriving DecidableEq, Repr

/-- The `returns` array of `calculateWinningMetrics`:
`(candles[i].c - candles[i-1].c) / candles[i-1].c` for `i` from 1. -/
def returnsOf (candles : List CandleData) : List ℚ :=
  (candles.zip candles.tail).map (fun p => (p.2.c - p.1.c) / p.1.c)

/-- The `winRate` computation: percentage of strictly positive returns. -/
def winRateOf (candles : List CandleData) : ℚ :=
  (((returnsOf candles).filter (fun r => r > 0)).length : ℚ) /
    ((returnsOf candles).length : ℚ) * 100

/-- Embedding of `calculateWinningMetrics` (src/unnamed/part_000, lines
234-271).  `sqrt` abstracts JavaScript `Math.sqrt`. -/
def calculateWinningMetrics (sqrt : ℚ → ℚ) (candles : List CandleData) :
    WinningMetrics :=
  if candles.length < 30 then ⟨50, 0, 0, 0⟩
  else
    let returns := returnsOf candles
    let volatilities := candles.tail.map (fun candle => |candle.h - candle.l| / candle.c)
    let winRate := winRateOf candles
    let avgReturn := returns.sum / (returns.length : ℚ)
    let stdReturn := sqrt ((returns.map (fun r => (r - avgReturn) ^ 2)).sum /
      (returns.length : ℚ))
    let sharpeRatio :=
      if stdReturn = 0 then 0 else (avgReturn * sqrt 252) / (stdReturn * sqrt 252)
    let maxDrawdown := (candles.foldl (fun acc candle =>
        let peak := if candle.c > acc.2 then candle.c else acc.2
        let drawdown := (peak - candle.c) / peak
        (if drawdown > acc.1 then drawdown else acc.1, peak))
      ((0 : ℚ), (candles.headI).c)).1
    let avgVolatility := volatilities.sum / (volatilities.length : ℚ)
    ⟨winRate, sharpeRatio, maxDrawdown * 100, avgVolatility * 100⟩

structure MarketMetrics where
  price : ℚ
  change24h : ℚ
  volume24h : ℚ
  rsi : ℚ
  winRate : ℚ
  sharpeRatio : ℚ
  maxDrawdown : ℚ
  avgVolatility : ℚ
  deriving DecidableEq, Repr

/-- Embedding of `calculateAdvancedOpportunityScore` (src/unnamed/part_000,
lines 312-341). -/
def calculateAdvancedOpportunityScore (data : MarketMetrics) (fearGreedIndex : ℚ) : ℚ :=
  let winRateScore := min data.winRate 100
  let sharpeScore := max 0 (min 100 ((data.sharpeRatio + 2) * 25))
  let momentumBase : ℚ :=
    if data.rsi > 70 then 50 + 15
    else if data.rsi < 30 then 50 + 20
    else if data.rsi > 45 ∧ data.rsi < 55 then 50 - 10
    else 50
  let momentumScore :=
    if |data.change24h| > 5 then momentumBase + 15 else momentumBase
  let volumeScore := min 100 (data.volume24h / 1000000 * 10)
  let sentimentScore : ℚ :=
    if fearGreedIndex > 75 ∧ data.rsi > 65 then 80
    else if fearGreedIndex < 25 ∧ data.rsi < 35 then 70
    else if |fearGreedIndex - 50| > 20 then 30
    else 0
  let score := winRateScore * 0.4 + sharpeScore * 0.2 + min 100 momentumScore * 0.2
    + volumeScore * 0.1 + sentimentScore * 0.1
  let score := if data.maxDrawdown > 50 then score * 0.8 else score
  max 0 (min 100 score)

/-- Output of the setup classifier (the `reasoning` string, a formatted
message interpolating the win rate, is omitted). -/
structure SetupAnalysis where
  type : String
  direction : String
  confidence : ℚ
  deriving DecidableEq, Repr

/-- Embedding of `analyzeSetup` (src/unnamed/part_000, lines 462-499). -/
def analyzeSetup (rsi change24h fearGreedIndex winRate : ℚ) : SetupAnalysis :=
  if winRate > 70 ∧ rsi > 70 ∧ fearGreedIndex > 60 then
    ⟨"High Win Rate Bearish Reversal", "SHORT", 85⟩
  else if winRate > 65 ∧ rsi < 30 ∧ fearGreedIndex < 40 then
    ⟨"High Win Rate Bullish Reversal", "LONG", 80⟩
  else if winRate > 60 ∧ |change24h| > 6 then
    ⟨"High Win Rate Momentum", if change24h > 0 then "LONG" else "SHORT", 75⟩
  else if winRate > 55 then
    ⟨"Consistent Performer", if rsi > 50 then "LONG" else "SHORT", 65⟩
  else
    ⟨"Low Probability Setup", "NEUTRAL", 40⟩

/-- One detected chart formation as pushed by `identifyRealPatterns`. -/
structure PatternRecord where
  pattern : String
  timeframe : String
  confidence : ℚ
  signal : String
  description : String
  entry : Option ℚ
  target : Option ℚ
  stopLoss : Option ℚ
  deriving DecidableEq, Repr

namespace Patterns

def closesOf (candles : List CandleData) : List ℚ := candles.map CandleData.c

def highsOf (candles : List CandleData) : List ℚ := candles.map CandleData.h

def lowsOf (candles : List CandleData) : List ℚ := candles.map CandleData.l

def volumesOf (candles : List CandleData) : List ℚ := candles.map CandleData.v

/-- JavaScript `Math.max(...xs)` over a nonempty list (every call site passes
at least 20 elements). -/
def listMax : List ℚ → ℚ
  | [] => 0
  | a :: as => as.foldl max a

/-- JavaScript `Math.min(...xs)` over a nonempty list. -/
def listMin : List ℚ → ℚ
  | [] => 0
  | a :: as => as.foldl min a

def currentPrice (candles : List CandleData) : ℚ :=
  ((closesOf candles).getLast?).getD 0

def recentHigh (candles : List CandleData) : ℚ := listMax (lastN 20 (highsOf candles))

def recentLow (candles : List CandleData) : ℚ := listMin (lastN 20 (lowsOf candles))

def avgVolume (candles : List CandleData) : ℚ := (lastN 20 (volumesOf candles)).sum / 20

def recentVolume (candles : List CandleData) : ℚ := (lastN 5 (volumesOf candles)).sum / 5

/-- The `highPoints` array: pairs `(i, highs[i])` for interior indices
`10 ≤ i < length - 10` with `highs[i] > highs[i-5]` and `highs[i] > highs[i+5]`. -/
def highPoints (candles : List CandleData) : List (ℕ × ℚ) :=
  let highs := highsOf candles
  (List.range' 10 (candles.length - 20)).filterMap (fun i =>
    if highs.getD i 0 > highs.getD (i - 5) 0 ∧ highs.getD i 0 > highs.getD (i + 5) 0
    then some (i, highs.getD i 0) else none)

/-- The `lowPoints` array (symmetric rule with strict minima). -/
def lowPoints (candles : List CandleData) : List (ℕ × ℚ) :=
  let lows := lowsOf candles
  (List.range' 10 (candles.length - 20)).filterMap (fun i =>
    if lows.getD i 0 < lows.getD (i - 5) 0 ∧ lows.getD i 0 < lows.getD (i + 5) 0
    then some (i, lows.getD i 0) else none)

/-- Slope through the last two detected points:
`(pts[1].price - pts[0].price) / (pts[1].index - pts[0].index)` on `slice(-2)`. -/
def lastTwoSlope (pts : List (ℕ × ℚ)) : ℚ :=
  let two := lastN 2 pts
  let p0 := two.getD 0 (0, 0)
  let p1 := two.getD 1 (0, 0)
  (p1.2 - p0.2) / ((p1.1 : ℚ) - (p0.1 : ℚ))

/-- The Rising Wedge push of `identifyRealPatterns` (lines 386-405). -/
def risingWedgeBlock (candles : List CandleData) : List PatternRecord :=
  if 2 ≤ (highPoints candles).length ∧ 2 ≤ (lowPoints candles).length then
    let highSlope := lastTwoSlope (highPoints candles)
    let lowSlope := lastTwoSlope (lowPoints candles)
    if highSlope > 0 ∧ lowSlope > 0 ∧ lowSlope > highSlope ∧
        recentVolume candles < avgVolume candles * 0.8 then
      [{ pattern := "RISING WEDGE", timeframe := "1h", confidence := 78,
         signal := "bearish",
         description := "Rising wedge with volume decline - bearish breakdown expected",
         entry := some (currentPrice candles * 0.998),
         target := some (currentPrice candles * 0.92),
         stopLoss := some (currentPrice candles * 1.025) }]
    else []
  else []

/-- The Double Top push (lines 407-422). -/
def doubleTopBlock (candles : List CandleData) : List PatternRecord :=
  if 2 ≤ (highPoints candles).length then
    let two := lastN 2 (highPoints candles)
    let p0 := two.getD 0 (0, 0)
    let p1 := two.getD 1 (0, 0)
    let priceDiff := |p1.2 - p0.2| / p0.2
    if priceDiff < 0.02 ∧ currentPrice candles < recentHigh candles * 0.95 then
      [{ pattern := "DOUBLE TOP", timeframe := "1h", confidence := 72,
         signal := "bearish",
         description := "Double top formation with rejection - bearish reversal signal",
         entry := some (currentPrice candles * 0.997),
         target := some (currentPrice candles * 0.90),
         stopLoss := some (currentPrice candles * 1.03) }]
    else []
  else []

/-- The Bullish Flag push (lines 424-440; the unused `shortMA` local of the
source is not reproduced). -/
def bullishFlagBlock (candles : List CandleData) : List PatternRecord :=
  let longMA := (lastN 20 (closesOf candles)).sum / 20
  let priceAboveMA := currentPrice candles > longMA * 1.05
  let consolidation :=
    (recentHigh candles - recentLow candles) / currentPrice candles < 0.04
  if priceAboveMA ∧ consolidation ∧ recentVolume candles > avgVolume candles then
    [{ pattern := "BULLISH FLAG", timeframe := "1h", confidence := 69,
       signal := "bullish",
       description := "Bullish flag consolidation with volume - continuation expected",
       entry := some (currentPrice candles * 1.002),
       target := some (currentPrice candles * 1.12),
       stopLoss := some (currentPrice candles * 0.975) }]
  else []

/-- The Descending Triangle push (lines 442-456). -/
def descendingTriangleBlock (candles : List CandleData) : List PatternRecord :=
  let supportTests := ((lastN 10 (lowsOf candles)).filter
    (fun low => |low - recentLow candles| / recentLow candles < 0.01)).length
  if 2 ≤ supportTests ∧ currentPrice candles < recentHigh candles * 0.98 then
    [{ pattern := "DESCENDING TRIANGLE", timeframe := "1h", confidence := 75,
       signal := "bearish",
       description := "Descending triangle with horizontal support - breakdown likely",
       entry := some (currentPrice candles * 0.998),
       target := some (currentPrice candles * 0.88),
       stopLoss := some (currentPrice candles * 1.03) }]
  else []

end Patterns

/-- Embedding of `identifyRealPatterns` (src/unnamed/part_000, lines 343-460);
the four pushes happen in source order, so the result is their concatenation. -/
def identifyRealPatterns (candles : List CandleData) : List PatternRecord :=
  if candles.length < 50 then []
  else
    Patterns.risingWedgeBlock candles ++ Patterns.doubleTopBlock candles ++
      Patterns.bullishFlagBlock candles ++ Patterns.descendingTriangleBlock candles

/-- The Rising Wedge firing condition as the specification words it: at least
two detected local highs and two local lows, the slope of the last two highs
positive, the slope of the last two lows positive, the low slope exceeding the
high slope, and the recent 5-candle average volume below 0.8 times the
20-candle average volume. -/
def risingWedgeSpecCond (candles : List CandleData) : Prop :=
  2 ≤ (Patterns.highPoints candles).length ∧
  2 ≤ (Patterns.lowPoints candles).length ∧
  0 < Patterns.lastTwoSlope (Patterns.highPoints candles) ∧
  0 < Patterns.lastTwoSlope (Patterns.lowPoints candles) ∧
  Patterns.lastTwoSlope (Patterns.highPoints candles) <
    Patterns.lastTwoSlope (Patterns.lowPoints candles) ∧
  Patterns.recentVolume candles < 0.8 * Patterns.avgVolume candles

instance (candles : List CandleData) : Decidable (risingWedgeSpecCond candles) := by
  unfold risingWedgeSpecCond
  infer_instance

/-- The tiered risk profile. -/
structure RiskProfile where
  usagePct : ℚ
  riskPct : ℚ
  deriving DecidableEq, Repr

/-- Embedding of `getAccountRiskProfile` (src/unnamed/part_000, lines 91-96). -/
def getAccountRiskProfile (accountBalance : ℚ) : RiskProfile :=
  if accountBalance < 10 then ⟨85, 85⟩
  else if accountBalance < 50 then ⟨50, 50⟩
  else if accountBalance < 500 then ⟨20, 20⟩
  else ⟨5, 2⟩

/-- Embedding of `roundToLotSize` (src/unnamed/part_000, lines 169-172). -/
def roundToLotSize (size lotSize : ℚ) : ℚ :=
  if lotSize ≤ 0 then size else (jsRound (size / lotSize) : ℚ) * lotSize

/-- Embedding of `roundToTickSize` (src/unnamed/part_000, lines 175-178). -/
def roundToTickSize (price tickSize : ℚ) : ℚ :=
  if tickSize ≤ 0 then price else (jsRound (price / tickSize) : ℚ) * tickSize

/-- The advisory warnings that `calculatePositionSize` can push, identified by
constructor rather than by their emoji-decorated message strings. -/
inductive SizingWarning
  | highMarginUsage
  | microAccount
  | wideStopLoss
  | highLeverage
  | exceedsAvailableMargin
  deriving DecidableEq, Repr

/-- The two fatal failures of `calculatePositionSize`: no available margin, and
the minimum-notional check, whose error message names the required and the
available notional (both are carried here as values). -/
inductive SizingError
  | noAvailableMargin
  | positionTooSmall (required available : ℚ)
  deriving DecidableEq, Repr

/-- The `riskMetrics` sub-object of the sizing output. -/
structure RiskMetrics where
  stopDistancePct : ℚ
  riskRatio : ℚ
  leverageRisk : String
  winRateAdjustment : ℚ
  dynamicRiskUsed : ℚ
  deriving DecidableEq, Repr

/-- The sizing output object. -/
structure PositionSizeResult where
  positionSize : ℚ
  notionalValue : ℚ
  marginRequired : ℚ
  riskAmount : ℚ
  maxLoss : ℚ
  recommendedSize : ℚ
  warnings : List SizingWarning
  riskMetrics : RiskMetrics
  deriving DecidableEq, Repr

namespace Sizing

/-- `availableMargin = accountBalance - usedMargin` (line 1552). -/
def availableMargin (accountBalance usedMargin : ℚ) : ℚ := accountBalance - usedMargin

/-- `usableMargin = availableMargin * (usagePct / 100)` (line 1559). -/
def usableMargin (accountBalance usedMargin : ℚ) : ℚ :=
  availableMargin accountBalance usedMargin *
    ((getAccountRiskProfile accountBalance).usagePct / 100)

/-- `maxNotional = usableMargin * leverage` (line 1560). -/
def maxNotional (accountBalance usedMargin leverage : ℚ) : ℚ :=
  usableMargin accountBalance usedMargin * leverage

/-- `maxPositionSize = maxNotional / entryPrice` (line 1561). -/
def maxPositionSize (accountBalance usedMargin entryPrice leverage : ℚ) : ℚ :=
  maxNotional accountBalance usedMargin leverage / entryPrice

/-- `stopDistance = Math.abs(entryPrice - stopLoss)` (line 1563). -/
def stopDistance (entryPrice stopLoss : ℚ) : ℚ := |entryPrice - stopLoss|

/-- The `finalPositionSize` value after the risk-cap step (lines 1567-1577):
the stop-loss risk cap applies only when the account balance is at least 10. -/
def finalPositionSize (accountBalance usedMargin entryPrice stopLoss leverage : ℚ) : ℚ :=
  let maxPos := maxPositionSize accountBalance usedMargin entryPrice leverage
  if 10 ≤ accountBalance then
    let maxAcceptableRisk := accountBalance * ((getAccountRiskProfile accountBalance).riskPct / 100)
    let maxLossAtCurrentSize := maxPos * stopDistance entryPrice stopLoss
    if maxLossAtCurrentSize > maxAcceptableRisk then
      maxAcceptableRisk / stopDistance entryPrice stopLoss
    else maxPos
  else maxPos

/-- `finalNotional = finalPositionSize * entryPrice` (line 1586). -/
def finalNotional (accountBalance usedMargin entryPrice stopLoss leverage : ℚ) : ℚ :=
  finalPositionSize accountBalance usedMargin entryPrice stopLoss leverage * entryPrice

/-- `finalMarginRequired = finalNotional / leverage` (line 1587). -/
def finalMarginRequired (accountBalance usedMargin entryPrice stopLoss leverage : ℚ) : ℚ :=
  finalNotional accountBalance usedMargin entryPrice stopLoss leverage / leverage

/-- `finalMaxLoss = finalPositionSize * stopDistance` (line 1588). -/
def finalMaxLoss (accountBalance usedMargin entryPrice stopLoss leverage : ℚ) : ℚ :=
  finalPositionSize accountBalance usedMargin entryPrice stopLoss leverage *
    stopDistance entryPrice stopLoss

/-- The warnings pushed in source order (lines 1590-1611). -/
def warningsOf (accountBalance usedMargin entryPrice stopLoss leverage : ℚ) :
    List SizingWarning :=
  (if finalMarginRequired accountBalance usedMargin entryPrice stopLoss leverage >
      availableMargin accountBalance usedMargin * 0.95
    then [SizingWarning.highMarginUsage] else []) ++
  (if accountBalance < 10 then [SizingWarning.microAccount] else []) ++
  (if stopDistance entryPrice stopLoss / entryPrice * 100 > 10
    then [SizingWarning.wideStopLoss] else []) ++
  (if leverage > 15 then [SizingWarning.highLeverage] else []) ++
  (if finalMarginRequired accountBalance usedMargin entryPrice stopLoss leverage >
      availableMargin accountBalance usedMargin
    then [SizingWarning.exceedsAvailableMargin] else [])

end Sizing

/-- Embedding of the `calculate-position-size` tool body (src/unnamed/part_000,
lines 1536-1636), with the account snapshot (`accountBalance`, `usedMargin`)
passed explicitly instead of fetched, and the two `throw` statements modelled
as `Except.error`.  The `winRate` input is optional; JavaScript truthiness
makes a supplied value of 0 behave like an absent one. -/
def calculatePositionSize (accountBalance usedMargin entryPrice stopLoss leverage : ℚ)
    (winRate : Option ℚ) : Except SizingError PositionSizeResult :=
  let availMargin := Sizing.availableMargin accountBalance usedMargin
  if availMargin ≤ 0 then .error .noAvailableMargin
  else
    let riskProfile := getAccountRiskProfile accountBalance
    let stopDist := Sizing.stopDistance entryPrice stopLoss
    let stopDistancePercent := stopDist / entryPrice * 100
    let finalSize := Sizing.finalPositionSize accountBalance usedMargin entryPrice stopLoss leverage
    let minNotional : ℚ := 5
    let minPositionSize := minNotional / entryPrice
    if finalSize < minPositionSize then
      .error (.positionTooSmall (minPositionSize * entryPrice) (finalSize * entryPrice))
    else
      let finalNotionalV := finalSize * entryPrice
      let finalMarginRequiredV := finalNotionalV / leverage
      let finalMaxLossV := finalSize * stopDist
      let clampedSize :=
        if finalMarginRequiredV > availMargin then availMargin * leverage / entryPrice
        else finalSize
      .ok {
        positionSize := round4 clampedSize
        notionalValue := round2 finalNotionalV
        marginRequired := round2 finalMarginRequiredV
        riskAmount := round2 finalMaxLossV
        maxLoss := round2 finalMaxLossV
        recommendedSize := round4 clampedSize
        warnings := Sizing.warningsOf accountBalance usedMargin entryPrice stopLoss leverage
        riskMetrics := {
          stopDistancePct := round2 stopDistancePercent
          riskRatio := (jsRound (finalMaxLossV / accountBalance * 10000) : ℚ) / 100
          leverageRisk :=
            if leverage ≤ 3 then "LOW" else if leverage ≤ 7 then "MEDIUM" else "HIGH"
          winRateAdjustment :=
            match winRate with
            | none => 100
            | some w => if w = 0 then 100 else round2 (w / 60)
          dynamicRiskUsed := riskProfile.usagePct } }

/-! Helper lemmas shared by several claims. -/

lemma mem_of_mem_lastN {α : Type} {x : α} {n : ℕ} {xs : List α}
    (h : x ∈ lastN n xs) : x ∈ xs := List.mem_of_mem_drop h

lemma lastN_map {α β : Type} (f : α → β) (xs : List α) (n : ℕ) :
    lastN n (xs.map f) = (lastN n xs).map f := by
  unfold lastN
  rw [List.length_map, List.map_drop]

lemma avgGainOf_nonneg (closes : List ℚ) : 0 ≤ avgGainOf closes := by
  unfold avgGainOf
  apply div_nonneg _ (by norm_num)
  apply List.sum_nonneg
  intro x hx
  have hx' : x ∈ gainsOf closes := mem_of_mem_lastN hx
  unfold gainsOf at hx'
  obtain ⟨ch, _, rfl⟩ := List.mem_map.mp hx'
  split_ifs with h
  · linarith
  · exact le_refl 0

lemma avgLossOf_nonneg (closes : List ℚ) : 0 ≤ avgLossOf closes := by
  unfold avgLossOf
  apply div_nonneg _ (by norm_num)
  apply List.sum_nonneg
  intro x hx
  have hx' : x ∈ lossesOf closes := mem_of_mem_lastN hx
  unfold lossesOf at hx'
  obtain ⟨ch, _, rfl⟩ := List.mem_map.mp hx'
  split_ifs with h
  · exact abs_nonneg ch
  · exact le_refl 0

lemma rsOf_nonneg (closes : List ℚ) : 0 ≤ rsOf closes := by
  unfold rsOf
  split_ifs with h
  · norm_num
  · exact div_nonneg (avgGainOf_nonneg closes) (avgLossOf_nonneg closes)

lemma rsiOf_bounds (closes : List ℚ) : 0 ≤ rsiOf closes ∧ rsiOf closes ≤ 100 := by
  unfold rsiOf
  have h0 := rsOf_nonneg closes
  have h1 : (0 : ℚ) < 1 + rsOf closes := by linarith
  have h2 : 100 / (1 + rsOf closes) ≤ 100 := div_le_self (by norm_num) (by linarith)
  have h3 : 0 ≤ 100 / (1 + rsOf closes) := le_of_lt (div_pos (by norm_num) h1)
  constructor <;> linarith

lemma calcTI_rsi_of_ge (sqrt : ℚ → ℚ) (candles : List CandleData)
    (h : ¬ candles.length < 20) :
    (calculateTechnicalIndicators sqrt candles).rsi = rsiOf (candles.map CandleData.c) := by
  rw [calculateTechnicalIndicators, if_neg h]

/-- A flat candle used in concrete scenarios: all prices 1, volume 1. -/
def flatCandle : CandleData := ⟨0, 1, 1, 1, 1, 1⟩

/-- C3 counterexample: on 21 identical-price candles the most recent 14 deltas
contain no negative change, yet the returned RSI is not 100 (it is 10000/101,
about 99.01, because the sentinel sets RS to 100 and
100 - 100/(1+100) is not 100). -/
theorem C3_counterexample :
    (calculateTechnicalIndicators (fun _ => 0) (List.replicate 21 flatCandle)).rsi ≠ 100 := by
  rw [calcTI_rsi_of_ge _ _ (by simp)]
  have h : avgLossOf (List.map CandleData.c (List.replicate 21 flatCandle)) = 0 := by
    simp [avgLossOf, lossesOf, priceChanges, lastN, flatCandle, List.replicate]
  unfold rsiOf rsOf
  rw [if_pos h]
  norm_num

/-- C3 amended: for every candle series of length at least 20 whose most
recent 14 deltas contain no negative change, the RSI equals 10000/101
(about 99.01), reached through the RS = 100 sentinel in the formula
100 - 100/(1+RS); in particular a strictly flat series yields 10000/101,
not 50 and not 100. -/
theorem C3_amended_rsi (sqrt : ℚ → ℚ) (candles : List CandleData)
    (h20 : 20 ≤ candles.length)
    (hpos : ∀ ch ∈ lastN 14 (priceChanges (candles.map CandleData.c)), 0 ≤ ch) :
    (calculateTechnicalIndicators sqrt candles).rsi = 10000 / 101 := by
  have havg : avgLossOf (candles.map CandleData.c) = 0 := by
    unfold avgLossOf
    have hsum : (lastN 14 (lossesOf (candles.map CandleData.c))).sum = 0 := by
      apply List.sum_eq_zero
      intro x hx
      unfold lossesOf at hx
      rw [lastN_map] at hx
      obtain ⟨ch, hch, rfl⟩ := List.mem_map.mp hx
      rw [if_neg (not_lt.mpr (hpos ch hch))]
    rw [hsum]
    norm_num
  rw [calcTI_rsi_of_ge sqrt candles (not_lt.mpr h20)]
  unfold rsiOf rsOf
  rw [if_pos havg]
  norm_num

/-- C3 witness: the flat 21-candle series instantiates the amended claim. -/
theorem C3_witness :
    (calculateTechnicalIndicators (fun _ => 0) (List.replicate 21 flatCandle)).rsi
      = 10000 / 101 :=
  C3_amended_rsi (fun _ => 0) (List.replicate 21 flatCandle) (by simp)
    (by simp [priceChanges, lastN, flatCandle, List.replicate])

lemma winRateOf_bounds (candles : List CandleData)
    (h : 0 < (returnsOf candles).length) :
    0 ≤ winRateOf candles ∧ winRateOf candles ≤ 100 := by
  unfold winRateOf
  have hc : (((returnsOf candles).filter (fun r => r > 0)).length : ℚ) ≤
      ((returnsOf candles).length : ℚ) := by
    exact_mod_cast List.length_filter_le _ _
  have ht : (0 : ℚ) < ((returnsOf candles).length : ℚ) := by exact_mod_cast h
  constructor
  · apply mul_nonneg _ (by norm_num)
    exact div_nonneg (by positivity) (le_of_lt ht)
  · have hdiv : (((returnsOf candles).filter (fun r => r > 0)).length : ℚ) /
        ((returnsOf candles).length : ℚ) ≤ 1 := (div_le_one ht).mpr hc
    nlinarith

lemma returnsOf_length (candles : List CandleData) :
    (returnsOf candles).length = candles.length - 1 := by
  unfold returnsOf
  rw [List.length_map, List.length_zip, List.length_tail]
  omega

/-- C4: the indicator calculator's RSI lies in [0,100] for every input, the
performance calculator's winRate lies in [0,100] for every input, and the
opportunity scorer's result lies in [0,100] after its final clamp. -/
theorem C4_bounded_outputs (sqrt : ℚ → ℚ) (candlesA candlesB : List CandleData)
    (data : MarketMetrics) (fearGreedIndex : ℚ) :
    (0 ≤ (calculateTechnicalIndicators sqrt candlesA).rsi ∧
      (calculateTechnicalIndicators sqrt candlesA).rsi ≤ 100) ∧
    (0 ≤ (calculateWinningMetrics sqrt candlesB).winRate ∧
      (calculateWinningMetrics sqrt candlesB).winRate ≤ 100) ∧
    (0 ≤ calculateAdvancedOpportunityScore data fearGreedIndex ∧
      calculateAdvancedOpportunityScore data fearGreedIndex ≤ 100) := by
  refine ⟨?_, ?_, ?_⟩
  · by_cases h : candlesA.length < 20
    · rw [calculateTechnicalIndicators, if_pos h]
      norm_num
    · rw [calcTI_rsi_of_ge sqrt candlesA h]
      exact rsiOf_bounds _
  · rw [calculateWinningMetrics]
    by_cases h : candlesB.length < 30
    · rw [if_pos h]
      norm_num
    · rw [if_neg h]
      have hlen : 0 < (returnsOf candlesB).length := by
        rw [returnsOf_length]
        omega
      exact winRateOf_bounds candlesB hlen
  · simp only [calculateAdvancedOpportunityScore]
    constructor
    · exact le_max_left 0 _
    · exact max_le (by norm_num) (min_le_left _ _)

lemma score_shape_mono (a b x y z t : ℚ) (c : Prop) [Decidable c] (h : a ≤ b) :
    max 0 (min 100 (if c then (a * 0.4 + x + y + z + t) * 0.8 else a * 0.4 + x + y + z + t)) ≤
      max 0 (min 100 (if c then (b * 0.4 + x + y + z + t) * 0.8 else b * 0.4 + x + y + z + t)) := by
  apply max_le_max (le_refl 0)
  apply min_le_min (le_refl 100)
  split_ifs with hc
  · linarith
  · linarith

/-- C5: the opportunity score is monotone non-decreasing in winRate when the
other metric fields read by the scorer (rsi, sharpeRatio, change24h,
volume24h, maxDrawdown) and the sentiment index are held fixed. -/
theorem C5_score_monotone_winRate (d1 d2 : MarketMetrics) (fearGreedIndex : ℚ)
    (hw : d1.winRate ≤ d2.winRate)
    (h1 : d1.rsi = d2.rsi) (h2 : d1.sharpeRatio = d2.sharpeRatio)
    (h3 : d1.change24h = d2.change24h) (h4 : d1.volume24h = d2.volume24h)
    (h5 : d1.maxDrawdown = d2.maxDrawdown) :
    calculateAdvancedOpportunityScore d1 fearGreedIndex ≤
      calculateAdvancedOpportunityScore d2 fearGreedIndex := by
  have hmin : min d1.winRate 100 ≤ min d2.winRate 100 :=
    min_le_min hw (le_refl (100 : ℚ))
  simp only [calculateAdvancedOpportunityScore]
  rw [h1, h2, h3, h4, h5]
  exact score_shape_mono _ _ _ _ _ _ _ hmin

/-- C5 witness: two concrete records differing only in winRate. -/
theorem C5_witness :
    calculateAdvancedOpportunityScore ⟨1, 0, 0, 50, 40, 0, 0, 0⟩ 50 ≤
      calculateAdvancedOpportunityScore ⟨1, 0, 0, 50, 60, 0, 0, 0⟩ 50 :=
  C5_score_monotone_winRate ⟨1, 0, 0, 50, 40, 0, 0, 0⟩ ⟨1, 0, 0, 50, 60, 0, 0, 0⟩ 50
    (by norm_num) rfl rfl rfl rfl rfl

/-- C7: below 20 candles the indicator calculator returns exactly the neutral
defaults (rsi 50, sma and ema the last close, bollinger all 0, macd all 0) and
never errors; below 30 candles the performance calculator returns exactly
winRate 50, sharpeRatio 0, maxDrawdown 0, avgVolatility 0. -/
theorem C7_neutral_defaults (sqrt : ℚ → ℚ) (candlesA candlesB : List CandleData)
    (hne : candlesA ≠ []) (hA : candlesA.length < 20) (hB : candlesB.length < 30) :
    calculateTechnicalIndicators sqrt candlesA =
      ⟨50, (candlesA.getLast hne).c, (candlesA.getLast hne).c, ⟨0, 0, 0⟩, ⟨0, 0, 0⟩⟩ ∧
    calculateWinningMetrics sqrt candlesB = ⟨50, 0, 0, 0⟩ := by
  constructor
  · rw [calculateTechnicalIndicators, if_pos hA, List.getLast?_eq_getLast candlesA hne]
    rfl
  · rw [calculateWinningMetrics, if_pos hB]

/-- C7 witness: a one-candle series and the empty series. -/
theorem C7_witness :
    calculateTechnicalIndicators (fun _ => 0) [flatCandle] =
      ⟨50, 1, 1, ⟨0, 0, 0⟩, ⟨0, 0, 0⟩⟩ ∧
    calculateWinningMetrics (fun _ => 0) [] = ⟨50, 0, 0, 0⟩ :=
  C7_neutral_defaults (fun _ => 0) [flatCandle] [] (by simp) (by simp) (by simp)

/-- C8: whenever winRate exceeds 70, RSI exceeds 70 and sentiment exceeds 60,
the setup classifier fires its first rule (SHORT, confidence 85) regardless of
change24h, never falling through to a later rule. -/
theorem C8_rule_one (rsi change24h fearGreedIndex winRate : ℚ)
    (hw : winRate > 70) (hr : rsi > 70) (hs : fearGreedIndex > 60) :
    analyzeSetup rsi change24h fearGreedIndex winRate =
      ⟨"High Win Rate Bearish Reversal", "SHORT", 85⟩ := by
  rw [analyzeSetup, if_pos ⟨hw, hr, hs⟩]

/-- C8 witness: win rate 74, RSI 72, sentiment 65 (with a momentum-sized
change24h of 7 that rule 3 would otherwise catch) selects rule 1. -/
theorem C8_witness :
    analyzeSetup 72 7 65 74 = ⟨"High Win Rate Bearish Reversal", "SHORT", 85⟩ :=
  C8_rule_one 72 7 65 74 (by norm_num) (by norm_num) (by norm_num)

/-- The record that the Rising Wedge push emits at a given current price. -/
def wedgeRecord (price : ℚ) : PatternRecord :=
  { pattern := "RISING WEDGE", timeframe := "1h", confidence := 78,
    signal := "bearish",
    description := "Rising wedge with volume decline - bearish breakdown expected",
    entry := some (price * 0.998), target := some (price * 0.92),
    stopLoss := some (price * 1.025) }

lemma risingWedgeBlock_eq (candles : List CandleData) :
    Patterns.risingWedgeBlock candles =
      if risingWedgeSpecCond candles then [wedgeRecord (Patterns.currentPrice candles)]
      else [] := by
  simp only [Patterns.risingWedgeBlock, wedgeRecord]
  by_cases h : risingWedgeSpecCond candles
  · obtain ⟨ha, hb, hc, hd, he, hf⟩ := h
    rw [if_pos ⟨ha, hb⟩, if_pos ⟨hc, hd, he, by linarith⟩,
      if_pos (show risingWedgeSpecCond candles from ⟨ha, hb, hc, hd, he, hf⟩)]
  · rw [if_neg h]
    by_cases hab : 2 ≤ (Patterns.highPoints candles).length ∧
        2 ≤ (Patterns.lowPoints candles).length
    · have hcond : ¬(Patterns.lastTwoSlope (Patterns.highPoints candles) > 0 ∧
          Patterns.lastTwoSlope (Patterns.lowPoints candles) > 0 ∧
          Patterns.lastTwoSlope (Patterns.lowPoints candles) >
            Patterns.lastTwoSlope (Patterns.highPoints candles) ∧
          Patterns.recentVolume candles < Patterns.avgVolume candles * 0.8) := by
        intro hc
        exact h ⟨hab.1, hab.2, hc.1, hc.2.1, hc.2.2.1, by linarith [hc.2.2.2]⟩
      rw [if_pos hab, if_neg hcond]
    · rw [if_neg hab]

lemma doubleTopBlock_pattern {candles : List CandleData} {p : PatternRecord}
    (hp : p ∈ Patterns.doubleTopBlock candles) : p.pattern = "DOUBLE TOP" := by
  simp only [Patterns.doubleTopBlock] at hp
  split_ifs at hp
  · rw [List.mem_singleton] at hp
    rw [hp]
  all_goals exact absurd hp (List.not_mem_nil p)

lemma bullishFlagBlock_pattern {candles : List CandleData} {p : PatternRecord}
    (hp : p ∈ Patterns.bullishFlagBlock candles) : p.pattern = "BULLISH FLAG" := by
  simp only [Patterns.bullishFlagBlock] at hp
  split_ifs at hp
  · rw [List.mem_singleton] at hp
    rw [hp]
  all_goals exact absurd hp (List.not_mem_nil p)

lemma descendingTriangleBlock_pattern {candles : List CandleData} {p : PatternRecord}
    (hp : p ∈ Patterns.descendingTriangleBlock candles) :
    p.pattern = "DESCENDING TRIANGLE" := by
  simp only [Patterns.descendingTriangleBlock] at hp
  split_ifs at hp
  · rw [List.mem_singleton] at hp
    rw [hp]
  all_goals exact absurd hp (List.not_mem_nil p)

/-- C9: below 50 candles the pattern recognizer returns the empty list; at 50
or more candles it emits the Rising Wedge record (bearish, confidence 78,
entry price times 0.998, target price times 0.92, stop price times 1.025)
exactly when there are at least two detected local highs and two local lows
(a local high at interior index i has high i above both high (i-5) and
high (i+5), symmetrically for lows), both last-two slopes are positive, the
low slope exceeds the high slope, and the recent 5-candle average volume is
below 0.8 times the 20-candle average volume. -/
theorem C9_rising_wedge (candles : List CandleData) :
    (candles.length < 50 → identifyRealPatterns candles = []) ∧
    (50 ≤ candles.length →
      ((∃ p ∈ identifyRealPatterns candles, p.pattern = "RISING WEDGE") ↔
        risingWedgeSpecCond candles) ∧
      (∀ p ∈ identifyRealPatterns candles, p.pattern = "RISING WEDGE" →
        p = wedgeRecord (Patterns.currentPrice candles))) := by
  constructor
  · intro h
    rw [identifyRealPatterns, if_pos h]
  · intro h
    rw [identifyRealPatterns, if_neg (not_lt.mpr h)]
    have hwedge : ∀ q ∈ Patterns.risingWedgeBlock candles,
        risingWedgeSpecCond candles ∧ q = wedgeRecord (Patterns.currentPrice candles) := by
      intro q hq
      rw [risingWedgeBlock_eq] at hq
      by_cases hc : risingWedgeSpecCond candles
      · rw [if_pos hc, List.mem_singleton] at hq
        exact ⟨hc, hq⟩
      · rw [if_neg hc] at hq
        exact absurd hq (List.not_mem_nil q)
    constructor
    · constructor
      · rintro ⟨p, hp, hname⟩
        simp only [List.mem_append] at hp
        rcases hp with ((hp | hp) | hp) | hp
        · exact (hwedge p hp).1
        · exact absurd (doubleTopBlock_pattern hp ▸ hname) (by decide)
        · exact absurd (bullishFlagBlock_pattern hp ▸ hname) (by decide)
        · exact absurd (descendingTriangleBlock_pattern hp ▸ hname) (by decide)
      · intro hc
        refine ⟨wedgeRecord (Patterns.currentPrice candles), ?_, rfl⟩
        simp only [List.mem_append]
        left; left; left
        rw [risingWedgeBlock_eq, if_pos hc]
        exact List.mem_singleton_self _
    · intro p hp hname
      simp only [List.mem_append] at hp
      rcases hp with ((hp | hp) | hp) | hp
      · exact (hwedge p hp).2
      · exact absurd (doubleTopBlock_pattern hp ▸ hname) (by decide)
      · exact absurd (bullishFlagBlock_pattern hp ▸ hname) (by decide)
      · exact absurd (descendingTriangleBlock_pattern hp ▸ hname) (by decide)

/-- C9 witness: a 10-candle series returns no patterns, and on a flat
50-candle series the membership equivalence is instantiated. -/
theorem C9_witness :
    identifyRealPatterns (List.replicate 10 flatCandle) = [] ∧
    ((∃ p ∈ identifyRealPatterns (List.replicate 50 flatCandle),
        p.pattern = "RISING WEDGE") ↔
      risingWedgeSpecCond (List.replicate 50 flatCandle)) :=
  ⟨(C9_rising_wedge (List.replicate 10 flatCandle)).1 (by simp),
    ((C9_rising_wedge (List.replicate 50 flatCandle)).2 (by simp)).1⟩

/-! Helper lemmas for the position-sizing claims. -/

lemma round2_le (x : ℚ) : round2 x ≤ x + 1/200 := by
  unfold round2 jsRound
  rw [div_le_iff₀ (by norm_num : (0:ℚ) < 100)]
  calc ((⌊x * 100 + 1/2⌋ : ℤ) : ℚ) ≤ x * 100 + 1/2 := Int.floor_le _
    _ = (x + 1/200) * 100 := by ring

lemma riskPct_pos (b : ℚ) : 0 < (getAccountRiskProfile b).riskPct := by
  unfold getAccountRiskProfile
  split_ifs <;> norm_num

lemma usagePct_le_85 (b : ℚ) : (getAccountRiskProfile b).usagePct ≤ 85 := by
  unfold getAccountRiskProfile
  split_ifs <;> norm_num

lemma calc_ok_cases {b u e sl lev : ℚ} {w : Option ℚ} {r : PositionSizeResult}
    (hok : calculatePositionSize b u e sl lev w = Except.ok r) :
    0 < Sizing.availableMargin b u ∧
    r.riskAmount = round2 (Sizing.finalPositionSize b u e sl lev * Sizing.stopDistance e sl) ∧
    r.warnings = Sizing.warningsOf b u e sl lev ∧
    r.positionSize = round4 (if Sizing.finalPositionSize b u e sl lev * e / lev >
        Sizing.availableMargin b u then Sizing.availableMargin b u * lev / e
      else Sizing.finalPositionSize b u e sl lev) := by
  simp only [calculatePositionSize] at hok
  by_cases h1 : Sizing.availableMargin b u ≤ 0
  · rw [if_pos h1] at hok
    exact absurd hok (by simp)
  rw [if_neg h1] at hok
  by_cases h2 : Sizing.finalPositionSize b u e sl lev < 5 / e
  · rw [if_pos h2] at hok
    exact absurd hok (by simp)
  rw [if_neg h2, Except.ok.injEq] at hok
  subst hok
  exact ⟨lt_of_not_le h1, rfl, rfl, rfl⟩

lemma finalLoss_le_cap (b u e sl lev : ℚ) (hb : 10 ≤ b) :
    Sizing.finalPositionSize b u e sl lev * Sizing.stopDistance e sl ≤
      b * ((getAccountRiskProfile b).riskPct / 100) := by
  have hcap : 0 < b * ((getAccountRiskProfile b).riskPct / 100) :=
    mul_pos (by linarith) (div_pos (riskPct_pos b) (by norm_num))
  simp only [Sizing.finalPositionSize]
  rw [if_pos hb]
  by_cases hgt : Sizing.maxPositionSize b u e lev * Sizing.stopDistance e sl >
      b * ((getAccountRiskProfile b).riskPct / 100)
  · rw [if_pos hgt]
    have hsd : Sizing.stopDistance e sl ≠ 0 := by
      intro h0
      rw [h0, mul_zero] at hgt
      linarith
    rw [div_mul_cancel₀ _ hsd]
  · rw [if_neg hgt]
    linarith

lemma finalPositionSize_le_max (b u e sl lev : ℚ) :
    Sizing.finalPositionSize b u e sl lev ≤ Sizing.maxPositionSize b u e lev := by
  simp only [Sizing.finalPositionSize]
  by_cases hb : 10 ≤ b
  · rw [if_pos hb]
    by_cases hgt : Sizing.maxPositionSize b u e lev * Sizing.stopDistance e sl >
        b * ((getAccountRiskProfile b).riskPct / 100)
    · rw [if_pos hgt]
      have hcap : 0 < b * ((getAccountRiskProfile b).riskPct / 100) :=
        mul_pos (by linarith) (div_pos (riskPct_pos b) (by norm_num))
      have hsd : 0 < Sizing.stopDistance e sl := by
        rcases (abs_nonneg (e - sl)).lt_or_eq with h | h
        · exact h
        · exfalso
          rw [Sizing.stopDistance, ← h, mul_zero] at hgt
          linarith
      rw [div_le_iff₀ hsd]
      linarith
    · rw [if_neg hgt]
  · rw [if_neg hb]

lemma calc_map_positionSize (b u e sl lev : ℚ) (w : Option ℚ) :
    (calculatePositionSize b u e sl lev w).map PositionSizeResult.positionSize =
      if Sizing.availableMargin b u ≤ 0 then Except.error SizingError.noAvailableMargin
      else if Sizing.finalPositionSize b u e sl lev < 5 / e then
        Except.error (SizingError.positionTooSmall (5 / e * e)
          (Sizing.finalPositionSize b u e sl lev * e))
      else Except.ok (round4 (if Sizing.finalPositionSize b u e sl lev * e / lev >
          Sizing.availableMargin b u then Sizing.availableMargin b u * lev / e
        else Sizing.finalPositionSize b u e sl lev)) := by
  simp only [calculatePositionSize]
  split_ifs <;> rfl

/-- C1 counterexample: at account balance 10.25, no used margin, entry 1,
stop 0, leverage 1 the call succeeds with riskAmount 5.13, which exceeds
equity times riskPct/100 = 10.25 times 0.50 = 5.125: the two-decimal rounding
of the risk amount rounds up past the cap. -/
theorem C1_counterexample :
    (calculatePositionSize (41/4) 0 1 0 1 none).map PositionSizeResult.riskAmount =
      Except.ok (513/100) ∧
    (41/4 : ℚ) * ((getAccountRiskProfile (41/4)).riskPct / 100) < 513/100 := by
  constructor
  · norm_num [calculatePositionSize, Sizing.availableMargin, Sizing.usableMargin,
      Sizing.maxNotional, Sizing.maxPositionSize, Sizing.stopDistance,
      Sizing.finalPositionSize, Sizing.warningsOf, Sizing.finalMarginRequired,
      Sizing.finalNotional, getAccountRiskProfile, round2, round4, jsRound, Except.map]
  · norm_num [getAccountRiskProfile]

/-- C1 amended: for every successful position-sizing call with account
balance at least 10, the returned riskAmount is at most
equity times riskPct/100 plus the half-cent slack (1/200) introduced by the
two-decimal rounding of the risk amount; for balances below 10 the risk-cap
step is skipped and the returned positionSize does not depend on the
stop-loss price at all. -/
theorem C1_amended (b u e sl lev : ℚ) (w : Option ℚ) :
    (10 ≤ b → ∀ r, calculatePositionSize b u e sl lev w = Except.ok r →
      r.riskAmount ≤ b * ((getAccountRiskProfile b).riskPct / 100) + 1/200) ∧
    (b < 10 → ∀ sl2,
      (calculatePositionSize b u e sl lev w).map PositionSizeResult.positionSize =
        (calculatePositionSize b u e sl2 lev w).map PositionSizeResult.positionSize) := by
  constructor
  · intro hb r hok
    obtain ⟨-, hra, -, -⟩ := calc_ok_cases hok
    rw [hra]
    have h1 := finalLoss_le_cap b u e sl lev hb
    have h2 := round2_le
      (Sizing.finalPositionSize b u e sl lev * Sizing.stopDistance e sl)
    linarith
  · intro hb sl2
    have hfs : ∀ sl', Sizing.finalPositionSize b u e sl' lev =
        Sizing.maxPositionSize b u e lev := by
      intro sl'
      simp only [Sizing.finalPositionSize]
      rw [if_neg (not_le.mpr hb)]
    rw [calc_map_positionSize, calc_map_positionSize, hfs sl, hfs sl2]

/-- The concrete result of the C1 counterexample call, used to instantiate
the amended claim. -/
def c1Rec : PositionSizeResult :=
  { positionSize := 41/8, notionalValue := 513/100, marginRequired := 513/100,
    riskAmount := 513/100, maxLoss := 513/100, recommendedSize := 41/8,
    warnings := [SizingWarning.wideStopLoss],
    riskMetrics := ⟨100, 50, "LOW", 100, 50⟩ }

/-- C1 witness: both halves of the amended claim instantiated at concrete
inputs (balance 10.25 for the bound, balance 5 for the stop-independence). -/
theorem C1_witness :
    c1Rec.riskAmount ≤ 41/4 * ((getAccountRiskProfile (41/4)).riskPct / 100) + 1/200 ∧
    (calculatePositionSize 5 0 1 0 1 none).map PositionSizeResult.positionSize =
      (calculatePositionSize 5 0 1 (1/2) 1 none).map PositionSizeResult.positionSize :=
  ⟨(C1_amended (41/4) 0 1 0 1 none).1 (by norm_num) c1Rec
      (by norm_num [calculatePositionSize, Sizing.availableMargin, Sizing.usableMargin,
        Sizing.maxNotional, Sizing.maxPositionSize, Sizing.stopDistance,
        Sizing.finalPositionSize, Sizing.warningsOf, Sizing.finalMarginRequired,
        Sizing.finalNotional, getAccountRiskProfile, round2, round4, jsRound, c1Rec]),
    (C1_amended 5 0 1 0 1 none).2 (by norm_num) (1/2)⟩

/-- C2 counterexample: at balance 1000, entry 50000, stop 51000, leverage 3
the sizing call returns positionSize 0.003, which is not an integer multiple
of a live lot size of 0.01 (szDecimals 2): rounding it to that lot size
changes it.  The sizing call only ever rounds to the fixed 0.0001 step. -/
theorem C2_counterexample :
    (calculatePositionSize 1000 0 50000 51000 3 none).map PositionSizeResult.positionSize
      = Except.ok (3/1000) ∧
    roundToLotSize (3/1000) (1/100) ≠ 3/1000 := by
  constructor
  · norm_num [calculatePositionSize, Sizing.availableMargin, Sizing.usableMargin,
      Sizing.maxNotional, Sizing.maxPositionSize, Sizing.stopDistance,
      Sizing.finalPositionSize, Sizing.warningsOf, Sizing.finalMarginRequired,
      Sizing.finalNotional, getAccountRiskProfile, round2, round4, jsRound, Except.map]
  · norm_num [roundToLotSize, jsRound]

lemma roundToLotSize_round4 (x : ℚ) : roundToLotSize (round4 x) (1/10000) = round4 x := by
  unfold roundToLotSize round4 jsRound
  rw [if_neg (by norm_num : ¬ (1/10000 : ℚ) ≤ 0)]
  have h1 : ((⌊x * 10000 + 1/2⌋ : ℤ) : ℚ) / 10000 / (1/10000) =
      ((⌊x * 10000 + 1/2⌋ : ℤ) : ℚ) := by
    field_simp
  rw [h1]
  have h2 : ⌊((⌊x * 10000 + 1/2⌋ : ℤ) : ℚ) + 1/2⌋ = ⌊x * 10000 + 1/2⌋ := by
    rw [Int.floor_int_add]
    norm_num
  rw [h2]
  ring

/-- C2 amended: for every successful position-sizing call the returned
positionSize is an integer multiple of the fixed 0.0001 rounding step (so
rounding it to a lot size of 0.0001 is the identity); compliance with the
instrument's live lot size happens later, in the trade-execution path, not in
the sizing call. -/
theorem C2_amended (b u e sl lev : ℚ) (w : Option ℚ) (r : PositionSizeResult)
    (hok : calculatePositionSize b u e sl lev w = Except.ok r) :
    roundToLotSize r.positionSize (1/10000) = r.positionSize := by
  obtain ⟨-, -, -, hps⟩ := calc_ok_cases hok
  rw [hps, roundToLotSize_round4]

/-- The concrete result of the C2 counterexample call. -/
def c2Rec : PositionSizeResult :=
  { positionSize := 3/1000, notionalValue := 150, marginRequired := 50,
    riskAmount := 3, maxLoss := 3, recommendedSize := 3/1000,
    warnings := [], riskMetrics := ⟨2, 3/10, "LOW", 100, 5⟩ }

/-- C2 witness: the amended claim instantiated at the concrete call. -/
theorem C2_witness : roundToLotSize c2Rec.positionSize (1/10000) = c2Rec.positionSize :=
  C2_amended 1000 0 50000 51000 3 none c2Rec
    (by norm_num [calculatePositionSize, Sizing.availableMargin, Sizing.usableMargin,
      Sizing.maxNotional, Sizing.maxPositionSize, Sizing.stopDistance,
      Sizing.finalPositionSize, Sizing.warningsOf, Sizing.finalMarginRequired,
      Sizing.finalNotional, getAccountRiskProfile, round2, round4, jsRound, c2Rec])

/-- C6: whenever the account has positive available margin, the entry price is
positive and the computed position's notional falls below the fixed 5-dollar
minimum-notional floor, the sizing call fails with the explicit
position-too-small error carrying the required (5) versus available notional;
the size is never silently rounded up past the risk cap, and the failure is
just this call's error value. -/
theorem C6_min_notional (b u e sl lev : ℚ) (w : Option ℚ)
    (hm : 0 < Sizing.availableMargin b u) (he : 0 < e)
    (hsmall : Sizing.finalPositionSize b u e sl lev * e < 5) :
    calculatePositionSize b u e sl lev w =
      Except.error (SizingError.positionTooSmall 5
        (Sizing.finalPositionSize b u e sl lev * e)) := by
  have hlt : Sizing.finalPositionSize b u e sl lev < 5 / e := (lt_div_iff₀ he).mpr hsmall
  simp only [calculatePositionSize]
  rw [if_neg (not_le.mpr hm), if_pos hlt, div_mul_cancel₀ (5:ℚ) (ne_of_gt he)]

/-- C6 witness: balance 600 with 590 used leaves 10 of margin; at entry 100
the computed notional is 0.50, below the floor, and the call errors. -/
theorem C6_witness :
    calculatePositionSize 600 590 100 99 1 none =
      Except.error (SizingError.positionTooSmall 5
        (Sizing.finalPositionSize 600 590 100 99 1 * 100)) :=
  C6_min_notional 600 590 100 99 1 none
    (by norm_num [Sizing.availableMargin]) (by norm_num)
    (by norm_num [Sizing.finalPositionSize, Sizing.maxPositionSize, Sizing.maxNotional,
      Sizing.usableMargin, Sizing.availableMargin, Sizing.stopDistance,
      getAccountRiskProfile])

/-- C10: with positive available margin (and the schema-enforced bounds of a
positive entry price and leverage at least 1), the computed margin requirement
is at most usagePct/100 of the available margin, usagePct never exceeds 85, so
the requirement is strictly below the available margin; hence the clamp branch
is unreachable and the margin-exceeded warning never appears in a successful
result. -/
theorem C10_margin_clamp_unreachable (b u e sl lev : ℚ) (w : Option ℚ)
    (hm : 0 < Sizing.availableMargin b u) (he : 0 < e) (hl : 1 ≤ lev) :
    Sizing.finalMarginRequired b u e sl lev ≤
      Sizing.availableMargin b u * ((getAccountRiskProfile b).usagePct / 100) ∧
    (getAccountRiskProfile b).usagePct ≤ 85 ∧
    Sizing.finalMarginRequired b u e sl lev < Sizing.availableMargin b u ∧
    ∀ r, calculatePositionSize b u e sl lev w = Except.ok r →
      SizingWarning.exceedsAvailableMargin ∉ r.warnings := by
  have hlev : (0:ℚ) < lev := lt_of_lt_of_le one_pos hl
  have h3 : Sizing.maxPositionSize b u e lev * e / lev =
      Sizing.availableMargin b u * ((getAccountRiskProfile b).usagePct / 100) := by
    unfold Sizing.maxPositionSize Sizing.maxNotional Sizing.usableMargin
    field_simp
    ring
  have hle : Sizing.finalMarginRequired b u e sl lev ≤
      Sizing.availableMargin b u * ((getAccountRiskProfile b).usagePct / 100) := by
    unfold Sizing.finalMarginRequired Sizing.finalNotional
    rw [← h3]
    apply (div_le_div_iff_of_pos_right hlev).mpr
    exact mul_le_mul_of_nonneg_right (finalPositionSize_le_max b u e sl lev) (le_of_lt he)
  have h85 := usagePct_le_85 b
  have hlt : Sizing.finalMarginRequired b u e sl lev < Sizing.availableMargin b u := by
    have hc : Sizing.availableMargin b u * ((getAccountRiskProfile b).usagePct / 100) ≤
        Sizing.availableMargin b u * (85 / 100) := by
      apply mul_le_mul_of_nonneg_left _ (le_of_lt hm)
      linarith
    linarith
  refine ⟨hle, h85, hlt, ?_⟩
  intro r hok
  obtain ⟨-, -, hw, -⟩ := calc_ok_cases hok
  rw [hw]
  unfold Sizing.warningsOf
  rw [if_neg (not_lt.mpr (le_of_lt hlt))]
  intro hmem
  simp only [List.append_nil, List.mem_append] at hmem
  split_ifs at hmem <;> simp_all

/-- The concrete result of the C10 witness call (balance 100, entry 10,
stop 9, leverage 2). -/
def c10Rec : PositionSizeResult :=
  { positionSize := 4, notionalValue := 40, marginRequired := 20,
    riskAmount := 4, maxLoss := 4, recommendedSize := 4,
    warnings := [], riskMetrics := ⟨10, 4, "LOW", 100, 20⟩ }

/-- C10 witness: the bounds and the warning absence instantiated at a
concrete call. -/
theorem C10_witness :
    (Sizing.finalMarginRequired 100 0 10 9 2 ≤
      Sizing.availableMargin 100 0 * ((getAccountRiskProfile 100).usagePct / 100) ∧
    (getAccountRiskProfile 100).usagePct ≤ 85 ∧
    Sizing.finalMarginRequired 100 0 10 9 2 < Sizing.availableMargin 100 0) ∧
    SizingWarning.exceedsAvailableMargin ∉ c10Rec.warnings := by
  have h := C10_margin_clamp_unreachable 100 0 10 9 2 none
    (by norm_num [Sizing.availableMargin]) (by norm_num) (by norm_num)
  refine ⟨⟨h.1, h.2.1, h.2.2.1⟩, h.2.2.2 c10Rec ?_⟩
  norm_num [calculatePositionSize, Sizing.availableMargin, Sizing.usableMargin,
    Sizing.maxNotional, Sizing.maxPositionSize, Sizing.stopDistance,
    Sizing.finalPositionSize, Sizing.warningsOf, Sizing.finalMarginRequired,
    Sizing.finalNotional, getAccountRiskProfile, round2, round4, jsRound, c10Rec]
